import Mathlib

/-!
Shallow embedding of the interrupt-management and timer core of the
bl602-hal repository (files `src/clic.rs` and `src/interrupts.rs`),
together with theorems settling the specification claims.

Modelling conventions:
- Machine integers (`u32`, `u64`, `u8`) are `Nat`; wrap-around is made
  explicit with `% 2 ^ 64` where the source can overflow.
- A Rust function that can panic is embedded as an `Option`-returning
  function; `none` models the panic (division by zero in `get_time_ms` /
  `get_time_us`, the `Unknown` arm of `Interrupt::to_irq`).
- The CLIC register banks are a byte-addressed memory `Mem : Nat → Nat`;
  a volatile byte write is a pointwise function update.
- The mtime/mtimecmp registers live in a two-field record `TimerState`.
- The external `_start_trap_rust` collaborator and the external handler
  symbols are modelled as the codomain `DispatchTarget` of the dispatcher:
  the dispatcher's observable behaviour is which callee it selects.
- CSR side effects of `_setup_interrupts` (mtvec write, global interrupt
  enable/disable) target registers outside the CLIC byte banks and are not
  part of the byte memory; the claims concern only the enable/pending banks.
-/

namespace Bl602

/-! ### Constants from `src/clic.rs` -/

def CLIC_CTRL_ADDR : Nat := 0x02000000

def CLIC_MTIMECMP : Nat := 0x4000

def CLIC_MTIME : Nat := 0xBFF8

/-- State of the 64-bit timer block: the free-running `mtime` tick counter
and the `mtimecmp` compare register. -/
structure TimerState where
  mtime : Nat
  mtimecmp : Nat
deriving DecidableEq

/-- Embeds `struct Clic { freq: Hertz }`: the tick frequency in Hertz,
captured at construction. -/
structure Clic where
  freq : Nat
deriving DecidableEq

/-- Embeds `Clic::get_ticks`: one volatile 64-bit read of `mtime`. -/
def Clic.get_ticks (_c : Clic) (s : TimerState) : Nat :=
  s.mtime

/-- Embeds `Clic::get_time_ms`: `scale` is the frequency converted to whole
kilohertz (integer truncation, as `Kilohertz::<u32>::from` performs); the
`u64` division panics when `scale` is zero, modelled as `none`. -/
def Clic.get_time_ms (c : Clic) (s : TimerState) : Option Nat :=
  let scale := c.freq / 1000
  if scale = 0 then none else some (Clic.get_ticks c s / scale)

/-- Embeds `Clic::get_time_us`: `scale` is the frequency converted to whole
megahertz (integer truncation, as `Megahertz::<u32>::from` performs); the
`u64` division panics when `scale` is zero, modelled as `none`. -/
def Clic.get_time_us (c : Clic) (s : TimerState) : Option Nat :=
  let scale := c.freq / 1000000
  if scale = 0 then none else some (Clic.get_ticks c s / scale)

/-- Embeds `Clic::set_timecmp`: one volatile write of `get_ticks() + delay`
(`u64` addition, hence modulo `2 ^ 64`) into the `mtimecmp` register. -/
def Clic.set_timecmp (c : Clic) (s : TimerState) (delay : Nat) : TimerState :=
  { s with mtimecmp := (Clic.get_ticks c s + delay) % 2 ^ 64 }

/-! ### Constants from `src/interrupts.rs` -/

def IRQ_NUM_BASE : Nat := 16

def CLIC_HART0_ADDR : Nat := 0x02800000

def CLIC_INTIE : Nat := 0x400

def CLIC_INTIP : Nat := 0x000

def MSIP_IRQ : Nat := 3

def MTIP_IRQ : Nat := 7

def MEIP_IRQ : Nat := 11

def DMA0_IRQ : Nat := IRQ_NUM_BASE + 15

def SPI0_IRQ : Nat := IRQ_NUM_BASE + 27

def UART0_IRQ : Nat := IRQ_NUM_BASE + 29

def UART1_IRQ : Nat := IRQ_NUM_BASE + 30

def I2C0_IRQ : Nat := IRQ_NUM_BASE + 32

def PWM_IRQ : Nat := IRQ_NUM_BASE + 34

def TIMER_CH0_IRQ : Nat := IRQ_NUM_BASE + 36

def TIMER_CH1_IRQ : Nat := IRQ_NUM_BASE + 37

def WATCHDOG_IRQ : Nat := IRQ_NUM_BASE + 38

def GPIO_IRQ : Nat := IRQ_NUM_BASE + 44

/-- Embeds `enum Interrupt` from `src/interrupts.rs`. -/
inductive Interrupt where
  | Unknown
  | MachineSoft
  | MachineTimer
  | MachineExternal
  | Gpio
  | TimerCh0
  | TimerCh1
  | Watchdog
  | Dma
  | Spi
  | Uart0
  | Uart1
  | I2c
  | Pwm
deriving DecidableEq, Fintype

/-- Embeds `Interrupt::to_irq`. The `Unknown` arm executes
`panic!("Unknown interrupt has no irq number")`; the panic is modelled
as `none`, every other arm returns its IRQ constant. -/
def Interrupt.to_irq : Interrupt → Option Nat
  | .Unknown => none
  | .MachineSoft => some MSIP_IRQ
  | .MachineTimer => some MTIP_IRQ
  | .MachineExternal => some MEIP_IRQ
  | .Gpio => some GPIO_IRQ
  | .TimerCh0 => some TIMER_CH0_IRQ
  | .TimerCh1 => some TIMER_CH1_IRQ
  | .Watchdog => some WATCHDOG_IRQ
  | .Dma => some DMA0_IRQ
  | .Spi => some SPI0_IRQ
  | .Uart0 => some UART0_IRQ
  | .Uart1 => some UART1_IRQ
  | .I2c => some I2C0_IRQ
  | .Pwm => some PWM_IRQ

/-- Embeds `Interrupt::from` (`from` is a Lean keyword, hence the name):
a sequential match of the `u32` argument against the IRQ constants, with
the wildcard arm returning `Unknown`. -/
def Interrupt.fromIrq (irq : Nat) : Interrupt :=
  if irq = MSIP_IRQ then .MachineSoft
  else if irq = MTIP_IRQ then .MachineTimer
  else if irq = MEIP_IRQ then .MachineExternal
  else if irq = GPIO_IRQ then .Gpio
  else if irq = TIMER_CH0_IRQ then .TimerCh0
  else if irq = TIMER_CH1_IRQ then .TimerCh1
  else if irq = WATCHDOG_IRQ then .Watchdog
  else if irq = DMA0_IRQ then .Dma
  else if irq = SPI0_IRQ then .Spi
  else if irq = UART0_IRQ then .Uart0
  else if irq = UART1_IRQ then .Uart1
  else if irq = I2C0_IRQ then .I2c
  else if irq = PWM_IRQ then .Pwm
  else .Unknown

/-- The IRQ numbers that appear in the match table of `Interrupt::from`. -/
def knownIrqList : List Nat :=
  [MSIP_IRQ, MTIP_IRQ, MEIP_IRQ, GPIO_IRQ, TIMER_CH0_IRQ, TIMER_CH1_IRQ,
   WATCHDOG_IRQ, DMA0_IRQ, SPI0_IRQ, UART0_IRQ, UART1_IRQ, I2C0_IRQ, PWM_IRQ]

/-! ### CLIC byte memory and the interrupt control operations -/

/-- Byte-addressed view of the CLIC register banks: address to byte value. -/
def Mem : Type := Nat → Nat

/-- One volatile byte write (`ptr.write_volatile(v)`). -/
def writeByte (m : Mem) (a v : Nat) : Mem :=
  fun x => if x = a then v else m x

/-- Embeds `enable_interrupt`: `to_irq` (propagating its panic), then one
volatile write of 1 at `CLIC_HART0_ADDR + CLIC_INTIE + irq`. -/
def enable_interrupt (i : Interrupt) (m : Mem) : Option Mem :=
  (Interrupt.to_irq i).map fun irq =>
    writeByte m (CLIC_HART0_ADDR + CLIC_INTIE + irq) 1

/-- Embeds `disable_interrupt`: `to_irq`, then one volatile write of 0 at
`CLIC_HART0_ADDR + CLIC_INTIE + irq`. -/
def disable_interrupt (i : Interrupt) (m : Mem) : Option Mem :=
  (Interrupt.to_irq i).map fun irq =>
    writeByte m (CLIC_HART0_ADDR + CLIC_INTIE + irq) 0

/-- Embeds `clear_interrupt`: `to_irq`, then one volatile write of 0 at
`CLIC_HART0_ADDR + CLIC_INTIP + irq`. -/
def clear_interrupt (i : Interrupt) (m : Mem) : Option Mem :=
  (Interrupt.to_irq i).map fun irq =>
    writeByte m (CLIC_HART0_ADDR + CLIC_INTIP + irq) 0

/-- A 32-bit store viewed on the byte memory: the four little-endian bytes
of `v` are written at `a`, `a+1`, `a+2`, `a+3`. -/
def writeWord32 (m : Mem) (a v : Nat) : Mem :=
  writeByte
    (writeByte
      (writeByte
        (writeByte m a (v % 256))
        (a + 1) (v / 2 ^ 8 % 256))
      (a + 2) (v / 2 ^ 16 % 256))
    (a + 3) (v / 2 ^ 24 % 256)

/-- Embeds `slice.iter_mut().for_each(|v| *v = 0)` on a `u32` slice of
length `n` based at `base`: word entry `k` lives at byte address
`base + 4 * k`. -/
def zeroWords (m : Mem) (base : Nat) : Nat → Mem
  | 0 => m
  | n + 1 => writeWord32 (zeroWords m base n) (base + 4 * n) 0

/-- Embeds `_setup_interrupts` restricted to the CLIC byte banks: the
`16 + 8`-entry `u32` enable slice at `CLIC_HART0_ADDR + CLIC_INTIE` is
zeroed first, then the `16 + 8`-entry pending slice at
`CLIC_HART0_ADDR + CLIC_INTIP`. The surrounding mtvec write and global
interrupt disable/enable act on CSRs outside this memory. -/
def _setup_interrupts (m : Mem) : Mem :=
  zeroWords (zeroWords m (CLIC_HART0_ADDR + CLIC_INTIE) (16 + 8))
    (CLIC_HART0_ADDR + CLIC_INTIP) (16 + 8)

/-! ### The trap dispatcher -/

/-- The callee selected by the dispatcher: either the external
`_start_trap_rust` generic trap path, or the uniquely named external
handler of one interrupt source. -/
inductive DispatchTarget where
  | genericTrap
  | handler (i : Interrupt)
deriving DecidableEq

/-- Embeds `start_trap_rust_hal`: the observables of `mcause::read()` are
the exception flag and the cause code. Exceptions and codes below
`IRQ_NUM_BASE` go to `_start_trap_rust`; otherwise the low byte of the code
is decoded by `Interrupt::from` and matched exactly as in the source. -/
def start_trap_rust_hal (is_exception : Bool) (code : Nat) : DispatchTarget :=
  if is_exception then .genericTrap
  else if code < IRQ_NUM_BASE then .genericTrap
  else
    let interrupt_number := code &&& 0xff
    match Interrupt.fromIrq interrupt_number with
    | .Unknown => .genericTrap
    | .MachineSoft => .handler .MachineSoft
    | .MachineTimer => .handler .MachineTimer
    | .MachineExternal => .handler .MachineExternal
    | .Gpio => .handler .Gpio
    | .TimerCh0 => .handler .TimerCh0
    | .TimerCh1 => .handler .TimerCh1
    | .Watchdog => .handler .Watchdog
    | .Dma => .handler .Dma
    | .Spi => .handler .Spi
    | .Uart0 => .handler .Uart0
    | .Uart1 => .handler .Uart1
    | .I2c => .handler .I2c
    | .Pwm => .handler .Pwm

/-! ### Theorems -/

/-- C9: the IRQ numbers assigned to the known interrupt sources are exactly
machine-software = 3, machine-timer = 7, machine-external = 11, and base 16
plus fixed offsets for the peripherals: DMA = 31, SPI = 43, UART0 = 45,
UART1 = 46, I2C = 48, PWM = 50, timer-ch0 = 52, timer-ch1 = 53,
watchdog = 54, GPIO = 60; `to_irq` returns these values. -/
theorem c9_irq_numbers :
    IRQ_NUM_BASE = 16 ∧
    Interrupt.to_irq .MachineSoft = some 3 ∧
    Interrupt.to_irq .MachineTimer = some 7 ∧
    Interrupt.to_irq .MachineExternal = some 11 ∧
    Interrupt.to_irq .Dma = some (16 + 15) ∧
    Interrupt.to_irq .Spi = some (16 + 27) ∧
    Interrupt.to_irq .Uart0 = some (16 + 29) ∧
    Interrupt.to_irq .Uart1 = some (16 + 30) ∧
    Interrupt.to_irq .I2c = some (16 + 32) ∧
    Interrupt.to_irq .Pwm = some (16 + 34) ∧
    Interrupt.to_irq .TimerCh0 = some (16 + 36) ∧
    Interrupt.to_irq .TimerCh1 = some (16 + 37) ∧
    Interrupt.to_irq .Watchdog = some (16 + 38) ∧
    Interrupt.to_irq .Gpio = some (16 + 44) ∧
    Interrupt.to_irq .Dma = some 31 ∧
    Interrupt.to_irq .Spi = some 43 ∧
    Interrupt.to_irq .Uart0 = some 45 ∧
    Interrupt.to_irq .Uart1 = some 46 ∧
    Interrupt.to_irq .I2c = some 48 ∧
    Interrupt.to_irq .Pwm = some 50 ∧
    Interrupt.to_irq .TimerCh0 = some 52 ∧
    Interrupt.to_irq .TimerCh1 = some 53 ∧
    Interrupt.to_irq .Watchdog = some 54 ∧
    Interrupt.to_irq .Gpio = some 60 := by
  decide

/-- C2: `to_irq` and `fromIrq` are mutual inverses over the known set:
decoding the IRQ number of any non-`Unknown` source gives the source back,
encoding the source decoded from any number in the known table gives the
number back, and `to_irq` is injective on non-`Unknown` sources. -/
theorem c2_roundtrip :
    (∀ s : Interrupt, s ≠ .Unknown →
      (Interrupt.to_irq s).map Interrupt.fromIrq = some s) ∧
    (∀ n ∈ knownIrqList, Interrupt.to_irq (Interrupt.fromIrq n) = some n) ∧
    (∀ s t : Interrupt, s ≠ .Unknown → t ≠ .Unknown →
      Interrupt.to_irq s = Interrupt.to_irq t → s = t) := by
  decide

/-- Witness for C2 at concrete inputs: the GPIO source round-trips through
its IRQ number, and the table entry 45 (UART0) round-trips through its
source. -/
theorem c2_witness :
    (Interrupt.to_irq Interrupt.Gpio).map Interrupt.fromIrq =
      some Interrupt.Gpio ∧
    Interrupt.to_irq (Interrupt.fromIrq 45) = some 45 ∧
    Interrupt.Spi = Interrupt.Spi :=
  ⟨c2_roundtrip.1 Interrupt.Gpio (by decide),
   c2_roundtrip.2.1 45 (by decide),
   c2_roundtrip.2.2 Interrupt.Spi Interrupt.Spi (by decide) (by decide) rfl⟩

/-- C3: `to_irq` on the `Unknown` sentinel panics (modelled as `none`, so
it never yields an IRQ number), and is total and panic-free on every
non-`Unknown` variant. -/
theorem c3_unknown_total :
    Interrupt.to_irq Interrupt.Unknown = none ∧
    (∀ s : Interrupt, s ≠ .Unknown → (Interrupt.to_irq s).isSome = true) := by
  decide

/-- Witness for C3 at a concrete input: `to_irq` succeeds on `Gpio`. -/
theorem c3_witness : (Interrupt.to_irq Interrupt.Gpio).isSome = true :=
  c3_unknown_total.2 Interrupt.Gpio (by decide)

/-- C1 counterexample: an asynchronous interrupt with cause code 11 is NOT
dispatched to the machine-external handler by `start_trap_rust_hal` — it is
below `IRQ_NUM_BASE` and goes to the generic `_start_trap_rust` path. -/
theorem c1_counterexample :
    (start_trap_rust_hal false 11 =
      DispatchTarget.handler Interrupt.MachineExternal) = False :=
  eq_false (by decide)

/-- C1 as amended: for an asynchronous interrupt, a cause code of 11 is
below the first-peripheral-IRQ threshold of 16 and is forwarded to the
generic `_start_trap_rust` trap path rather than dispatched by this
function to the machine-external handler; a cause code of 200 (outside the
known table) likewise routes to the generic path and to no peripheral
handler. -/
theorem c1_dispatch :
    start_trap_rust_hal false 11 = DispatchTarget.genericTrap ∧
    start_trap_rust_hal false 200 = DispatchTarget.genericTrap ∧
    ∀ i : Interrupt,
      (start_trap_rust_hal false 200 = DispatchTarget.handler i) = False := by
  refine ⟨by decide, by decide, fun i => eq_false ?_⟩
  cases i <;> decide

/-- C4 counterexample: at a 1000000 Hz frequency the megahertz scale is 1,
so 5000000 ticks yield 5000000 microseconds — `get_time_us` does not
return 5 as the claim states. -/
theorem c4_counterexample :
    (Clic.get_time_us ⟨1000000⟩ ⟨5000000, 0⟩ = some 5) = False :=
  eq_false (by decide)

/-- C4 as amended: whenever `get_time_ms` returns, the value is the tick
count divided by the frequency truncated to whole kilohertz, and whenever
`get_time_us` returns, the value is the tick count divided by the
frequency truncated to whole megahertz; at 32768 Hz and 65536 ticks
`get_time_ms` returns 2048, and at 1000000 Hz and 5000000 ticks
`get_time_us` returns 5000000. -/
theorem c4_time_conversion :
    (∀ (c : Clic) (s : TimerState) (v : Nat),
      Clic.get_time_ms c s = some v →
      v = Clic.get_ticks c s / (c.freq / 1000)) ∧
    (∀ (c : Clic) (s : TimerState) (v : Nat),
      Clic.get_time_us c s = some v →
      v = Clic.get_ticks c s / (c.freq / 1000000)) ∧
    Clic.get_time_ms ⟨32768⟩ ⟨65536, 0⟩ = some 2048 ∧
    Clic.get_time_us ⟨1000000⟩ ⟨5000000, 0⟩ = some 5000000 := by
  refine ⟨?_, ?_, by decide, by decide⟩ <;>
  · intro c s v h
    simp only [Clic.get_time_ms, Clic.get_time_us] at h
    split at h
    · exact Option.noConfusion h
    · exact (Option.some.inj h).symm

/-- Witness for C4 at concrete inputs: applying the general parts at
32768 Hz / 65536 ticks and at 1000000 Hz / 5000000 ticks. -/
theorem c4_witness :
    2048 = Clic.get_ticks ⟨32768⟩ ⟨65536, 0⟩ / ((32768 : Nat) / 1000) ∧
    5000000 =
      Clic.get_ticks ⟨1000000⟩ ⟨5000000, 0⟩ / ((1000000 : Nat) / 1000000) :=
  ⟨c4_time_conversion.1 ⟨32768⟩ ⟨65536, 0⟩ 2048 (by decide),
   c4_time_conversion.2.1 ⟨1000000⟩ ⟨5000000, 0⟩ 5000000 (by decide)⟩

/-- C10: for a tick frequency below 1000000 Hz (such as the 32768 Hz RTC),
the megahertz scale truncates to zero and `get_time_us` divides by zero,
i.e. panics (modelled as `none`) and never returns a value; likewise
`get_time_ms` panics for any frequency below 1000 Hz. -/
theorem c10_low_freq_div_zero :
    (∀ (c : Clic) (s : TimerState), c.freq < 1000000 →
      Clic.get_time_us c s = none) ∧
    (∀ (c : Clic) (s : TimerState), c.freq < 1000 →
      Clic.get_time_ms c s = none) := by
  constructor <;>
  · intro c s h
    simp only [Clic.get_time_us, Clic.get_time_ms]
    rw [if_pos (Nat.div_eq_of_lt h)]

/-- Witness for C10 at a concrete input: at the 32768 Hz RTC frequency,
`get_time_us` panics regardless of the tick count. -/
theorem c10_witness : Clic.get_time_us ⟨32768⟩ ⟨65536, 0⟩ = none :=
  c10_low_freq_div_zero.1 ⟨32768⟩ ⟨65536, 0⟩ (by decide)

/-- C5: `set_timecmp delay` writes the tick counter value plus `delay`
into the compare register (exactly, as long as the `u64` sum does not
wrap) and modifies no other timer register: `mtime` is unchanged; with the
counter at 10000, `set_timecmp 1000` leaves 11000 in `mtimecmp`. -/
theorem c5_set_timecmp :
    (∀ (c : Clic) (s : TimerState) (delay : Nat),
      Clic.get_ticks c s + delay < 2 ^ 64 →
      (Clic.set_timecmp c s delay).mtimecmp = Clic.get_ticks c s + delay ∧
      (Clic.set_timecmp c s delay).mtime = s.mtime) ∧
    (Clic.set_timecmp ⟨32768⟩ ⟨10000, 0⟩ 1000).mtimecmp = 11000 := by
  constructor
  · intro c s delay h
    exact ⟨Nat.mod_eq_of_lt h, rfl⟩
  · decide

/-- Witness for C5 at concrete inputs: the compare register holds
`ticks + delay` and the counter is untouched for `set_timecmp 1000` at
tick count 10000. -/
theorem c5_witness :
    (Clic.set_timecmp ⟨32768⟩ ⟨10000, 0⟩ 1000).mtimecmp =
      Clic.get_ticks ⟨32768⟩ ⟨10000, 0⟩ + 1000 ∧
    (Clic.set_timecmp ⟨32768⟩ ⟨10000, 0⟩ 1000).mtime = 10000 :=
  c5_set_timecmp.1 ⟨32768⟩ ⟨10000, 0⟩ 1000 (by decide)

/-- C6: for every source with an IRQ number, `enable_interrupt` succeeds
and writes 1 to the single enable-bank byte at that IRQ's index, leaving
every other address unchanged; `disable_interrupt` likewise writes 0 to
that same byte and nothing else. -/
theorem c6_enable_disable :
    (∀ (i : Interrupt) (m : Mem) (irq : Nat),
      Interrupt.to_irq i = some irq →
      (enable_interrupt i m).isSome = true ∧
      (enable_interrupt i m).getD m (CLIC_HART0_ADDR + CLIC_INTIE + irq) = 1 ∧
      ∀ a, a ≠ CLIC_HART0_ADDR + CLIC_INTIE + irq →
        (enable_interrupt i m).getD m a = m a) ∧
    (∀ (i : Interrupt) (m : Mem) (irq : Nat),
      Interrupt.to_irq i = some irq →
      (disable_interrupt i m).isSome = true ∧
      (disable_interrupt i m).getD m (CLIC_HART0_ADDR + CLIC_INTIE + irq) = 0 ∧
      ∀ a, a ≠ CLIC_HART0_ADDR + CLIC_INTIE + irq →
        (disable_interrupt i m).getD m a = m a) := by
  constructor <;>
  · intro i m irq h
    refine ⟨?_, ?_, ?_⟩
    · simp [enable_interrupt, disable_interrupt, h]
    · simp [enable_interrupt, disable_interrupt, h, writeByte]
    · intro a ha
      simp [enable_interrupt, disable_interrupt, h, writeByte, ha]

/-- Witness for C6 at concrete inputs: on an all-zero memory, after
`enable_interrupt Gpio` the enable-bank byte at GPIO's index 60 reads 1;
on an all-one memory, after `disable_interrupt Gpio` it reads 0, and the
neighbouring byte at index 59 is untouched. -/
theorem c6_witness :
    (enable_interrupt Interrupt.Gpio (fun _ => 0)).getD (fun _ => 0)
      (CLIC_HART0_ADDR + CLIC_INTIE + 60) = 1 ∧
    (disable_interrupt Interrupt.Gpio (fun _ => 1)).getD (fun _ => 1)
      (CLIC_HART0_ADDR + CLIC_INTIE + 60) = 0 ∧
    (enable_interrupt Interrupt.Gpio (fun _ => 0)).getD (fun _ => 0)
      (CLIC_HART0_ADDR + CLIC_INTIE + 59) = (fun _ => (0 : Nat)) 59 :=
  ⟨(c6_enable_disable.1 Interrupt.Gpio (fun _ => 0) 60 (by decide)).2.1,
   (c6_enable_disable.2 Interrupt.Gpio (fun _ => 1) 60 (by decide)).2.1,
   (c6_enable_disable.1 Interrupt.Gpio (fun _ => 0) 60 (by decide)).2.2
     (CLIC_HART0_ADDR + CLIC_INTIE + 59) (by decide)⟩

/-- C7: for every source with an IRQ number, `clear_interrupt` succeeds and
writes 0 only to the pending-bank byte at that IRQ's index; every other
address — the rest of the pending bank and the whole enable bank —
is unchanged. -/
theorem c7_clear_isolated :
    ∀ (i : Interrupt) (m : Mem) (irq : Nat),
      Interrupt.to_irq i = some irq →
      (clear_interrupt i m).isSome = true ∧
      (clear_interrupt i m).getD m (CLIC_HART0_ADDR + CLIC_INTIP + irq) = 0 ∧
      ∀ a, a ≠ CLIC_HART0_ADDR + CLIC_INTIP + irq →
        (clear_interrupt i m).getD m a = m a := by
  intro i m irq h
  refine ⟨?_, ?_, ?_⟩
  · simp [clear_interrupt, h]
  · simp [clear_interrupt, h, writeByte]
  · intro a ha
    simp [clear_interrupt, h, writeByte, ha]

/-- Memory fixture for the C7 witness: the pending-bank byte at SPI's IRQ
index holds 1, everything else 0. -/
def spiPendingOne : Mem :=
  fun a => if a = CLIC_HART0_ADDR + CLIC_INTIP + SPI0_IRQ then 1 else 0

/-- Witness for C7 at concrete inputs: `clear_interrupt Uart0` zeroes
UART0's pending byte (index 45) while SPI's pending byte (index 43), set
to 1 beforehand, still reads 1 afterwards. -/
theorem c7_witness :
    (clear_interrupt Interrupt.Uart0 spiPendingOne).getD spiPendingOne
      (CLIC_HART0_ADDR + CLIC_INTIP + 45) = 0 ∧
    (clear_interrupt Interrupt.Uart0 spiPendingOne).getD spiPendingOne
      (CLIC_HART0_ADDR + CLIC_INTIP + 43) = 1 :=
  ⟨(c7_clear_isolated Interrupt.Uart0 spiPendingOne 45 (by decide)).2.1,
   ((c7_clear_isolated Interrupt.Uart0 spiPendingOne 45 (by decide)).2.2
     (CLIC_HART0_ADDR + CLIC_INTIP + 43) (by decide)).trans (by decide)⟩

/-- Reading back a byte after a 32-bit store of zero: the four bytes at the
store address read 0, all others are unchanged. -/
theorem writeWord32_zero_lookup (m : Mem) (a x : Nat) :
    writeWord32 m a 0 x = if a ≤ x ∧ x < a + 4 then 0 else m x := by
  simp only [writeWord32, writeByte]
  split_ifs <;> first | rfl | (exfalso; omega)

/-- Reading back a byte after zeroing `n` 32-bit words based at `base`:
bytes in `[base, base + 4 * n)` read 0, all others are unchanged. -/
theorem zeroWords_lookup (m : Mem) (base : Nat) :
    ∀ n x, zeroWords m base n x =
      if base ≤ x ∧ x < base + 4 * n then 0 else m x := by
  intro n
  induction n with
  | zero =>
    intro x
    simp only [zeroWords]
    rw [if_neg (by omega)]
  | succ k ih =>
    intro x
    simp only [zeroWords, writeWord32_zero_lookup, ih]
    split_ifs <;> first | rfl | (exfalso; omega)

/-- C8: after `_setup_interrupts`, every one of the first 24 entries of
both the enable bank and the pending bank, indexed by IRQ number, reads
zero — every interrupt source starts disabled and unflagged. -/
theorem c8_setup_zeroes :
    ∀ (m : Mem) (i : Nat), i < 24 →
      _setup_interrupts m (CLIC_HART0_ADDR + CLIC_INTIE + i) = 0 ∧
      _setup_interrupts m (CLIC_HART0_ADDR + CLIC_INTIP + i) = 0 := by
  intro m i hi
  simp only [_setup_interrupts, zeroWords_lookup, CLIC_HART0_ADDR,
    CLIC_INTIE, CLIC_INTIP]
  constructor <;> split_ifs <;> first | rfl | (exfalso; omega)

/-- Witness for C8 at concrete inputs: starting from an all-one memory,
entry 0 of each bank reads zero after setup. -/
theorem c8_witness :
    _setup_interrupts (fun _ => 1) (CLIC_HART0_ADDR + CLIC_INTIE + 0) = 0 ∧
    _setup_interrupts (fun _ => 1) (CLIC_HART0_ADDR + CLIC_INTIP + 0) = 0 :=
  c8_setup_zeroes (fun _ => 1) 0 (by decide)

end Bl602
